import Mathlib

/-!
Verification of the AutoLab closed-loop temperature regulator.

The development shallowly embeds the core of the repository:

* `CryoSystem.update_temperature` (src/CryoSystem.py): one tick of the
  simulated plant together with the filtered PID law with anti-windup.
  The Gaussian sensor noise drawn inside the Python function is modelled
  as an explicit input `noise` to the step function; temperatures and
  gains are modelled as rationals.
* `TemperatureController` (src/TemperatureController.py): the setpoint
  scheduling state machine (`_update_target_setpoint`), the stability
  check (`_is_temperature_stable`) and the tick driver (`update`).
  The call to the `_on_stabilized` side effect is modelled as a Bool
  event output of the step.
* the length-mismatch fallback of `read_schedule_from_csv`
  (src/TemperatureController.py lines 76-80).
* `InstrumentInterface._go_to_next_setpoint` of the simulated PID cooler
  instrument (src/src/instruments/pid_cooler_simulator/interface.py).
-/

/-- State of the simulated cryogenic plant, mirroring the instance
attributes set in `CryoSystem.__init__` (src/CryoSystem.py). -/
structure CryoState where
  temperature : ℚ
  cooling_power : ℚ
  filtered_temp : ℚ
  last_filtered_temp : ℚ
  target_setpoint : ℚ
  kp : ℚ
  ki : ℚ
  kd : ℚ
  ambient_temp : ℚ
  parasitic_heat_load : ℚ
  heat_loss_coeff : ℚ
  cooling_effect_factor : ℚ
  noise_level : ℚ
  filter_alpha : ℚ
  integral_sum : ℚ
  deriving Repr, DecidableEq

namespace CryoSystem

/-- Constructor `CryoSystem.__init__(initial_temp)`: default gains kp=-130, ki=-1.5,
kd=-600 and the simulation constants of src/CryoSystem.py. -/
def init (initial_temp : ℚ) : CryoState :=
  { temperature := initial_temp
    cooling_power := 0
    filtered_temp := initial_temp
    last_filtered_temp := initial_temp
    target_setpoint := initial_temp
    kp := -130
    ki := -3/2
    kd := -600
    ambient_temp := 300
    parasitic_heat_load := 1/10
    heat_loss_coeff := 1/10000
    cooling_effect_factor := 2
    noise_level := 1/10
    filter_alpha := 1/5
    integral_sum := 0 }

/-- One tick of `CryoSystem.update_temperature(target_setpoint)`.  The
Gaussian draw `np.random.normal(0, noise_level)` is an explicit input
`noise`; everything after it is a line-by-line translation: low-pass
filter, conditional (anti-windup) integral accumulation gated on the
previous tick's `cooling_power` lying strictly inside (0, 100),
derivative of the filtered measurement with dt = 1, clamp of the raw
PID output to [0, 100], and the physical temperature update clamped to
be nonnegative.  The Python function returns the new temperature, i.e.
the `temperature` field of the returned state. -/
def update_temperature (s : CryoState) (target noise : ℚ) : CryoState :=
  let current_temp_reading := s.temperature + noise
  let filtered := s.filter_alpha * current_temp_reading + (1 - s.filter_alpha) * s.filtered_temp
  let integral :=
    if 0 < s.cooling_power ∧ s.cooling_power < 100 then s.integral_sum + (target - filtered) * 1
    else s.integral_sum
  let derivative := (filtered - s.last_filtered_temp) / 1
  let output := s.kp * (target - filtered) + s.ki * integral - s.kd * derivative
  let control_output := max 0 (min 100 output)
  let radiative_heat_transfer := s.heat_loss_coeff * (s.ambient_temp - s.temperature)
  let active_cooling := -s.cooling_effect_factor * control_output / 100
  let new_temperature :=
    max 0 (s.temperature + (radiative_heat_transfer + s.parasitic_heat_load + active_cooling) * 1)
  { s with
    target_setpoint := target
    filtered_temp := filtered
    integral_sum := integral
    cooling_power := control_output
    temperature := new_temperature
    last_filtered_temp := filtered }

end CryoSystem

/-- Default schedule `DEFAULT_SETPOINTS` of src/TemperatureController.py. -/
def DEFAULT_SETPOINTS : List ℚ := [300, 298, 295]

/-- Default dwell times `DEFAULT_STABLE_TIMES` of src/TemperatureController.py. -/
def DEFAULT_STABLE_TIMES : List ℚ := [10, 10, 10]

/-- The pure tail of `read_schedule_from_csv` (src/TemperatureController.py
lines 76-80): after parsing, if the dwell-time list's length disagrees with
the setpoint list's, the dwell-time list is replaced wholesale by
`[DEFAULT_STABLE_TIMES[0]] * len(setpoints)`.  The function returns the
pair `(setpoints, stable_times)` exactly as the Python function does. -/
def read_schedule_reconcile (setpoints stable_times : List ℚ) : List ℚ × List ℚ :=
  if stable_times.length ≠ setpoints.length then
    (setpoints, List.replicate setpoints.length (DEFAULT_STABLE_TIMES.getD 0 0))
  else
    (setpoints, stable_times)

/-- State of `TemperatureController` (src/TemperatureController.py),
mirroring the instance attributes set in `__init__`.  `cryo_system` is the
owned plant; `temperature` caches the last value returned by
`cryo_system.update_temperature`; `integral_sum` is the controller's own
accumulator field (distinct from `cryo_system.integral_sum`). -/
structure ControllerState where
  setpoint_schedule : List ℚ
  setpoint_stable_times : List ℚ
  cryo_system : CryoState
  temperature : ℚ
  integral_sum : ℚ
  schedule_index : ℕ
  target_setpoint : ℚ
  current_stable_time : ℚ
  stabilization_start_time : Option ℚ
  is_stable : Bool
  update_requested : Bool
  is_debug_mode : Bool
  deriving Repr, DecidableEq

namespace TemperatureController

/-- Predicate `TemperatureController._is_temperature_stable(target_temp, threshold)`:
the raw cached temperature is within `threshold` of the target. -/
abbrev is_temperature_stable (s : ControllerState) (target_temp threshold : ℚ) : Prop :=
  |s.temperature - target_temp| ≤ threshold

/-- Scheduler step `TemperatureController._update_target_setpoint(current_time,
stability_threshold)`, with the `_on_stabilized()` call modelled as the
Bool component of the result (true exactly when the Python code would
invoke it on this tick).  Branch structure follows the source: in-band
with no timer starts the timer; in-band with the dwell met sets
`is_stable` (firing the side effect if it was not already set) and, when
an update was requested and the cursor is not at the last entry, advances
the schedule and resets the timer, the controller's `integral_sum`,
`is_stable` and `update_requested`; out-of-band clears the timer and
`is_stable`. -/
def update_target_setpoint_ev (s : ControllerState) (current_time stability_threshold : ℚ) :
    ControllerState × Bool :=
  let is_last_setpoint := s.setpoint_schedule.length - 1 ≤ s.schedule_index
  if is_temperature_stable s s.target_setpoint stability_threshold then
    match s.stabilization_start_time with
    | none => ({ s with stabilization_start_time := some current_time }, false)
    | some t0 =>
      if s.current_stable_time ≤ current_time - t0 then
        let fired := !s.is_stable
        let s1 := { s with is_stable := true }
        if s1.update_requested then
          if is_last_setpoint then (s1, fired)
          else
            let i := s.schedule_index + 1
            ({ s1 with
                schedule_index := i
                target_setpoint := s.setpoint_schedule.getD i 0
                current_stable_time := s.setpoint_stable_times.getD i 0
                stabilization_start_time := none
                integral_sum := 0
                is_stable := false
                update_requested := false }, fired)
        else (s1, fired)
      else (s, false)
  else
    ({ s with stabilization_start_time := none, is_stable := false }, false)

/-- The first half of `TemperatureController.update()`: advance the owned
plant one tick (`self.temperature = self.cryo_system.update_temperature(
self.target_setpoint)`) and cache the raw temperature it returns. -/
def tick_pre (s : ControllerState) (noise : ℚ) : ControllerState :=
  let c := CryoSystem.update_temperature s.cryo_system s.target_setpoint noise
  { s with cryo_system := c, temperature := c.temperature }

/-- Tick driver `TemperatureController.update()`: one full control-loop tick.  The
wall-clock reading `time.time()` and the plant's noise draw are the
explicit inputs `current_time` and `noise`.  The tick updates the plant,
caches the returned (raw) temperature and then runs the scheduler with
the default stability threshold of 0.5 K.  The Bool component reports
whether `_on_stabilized` fired during the tick. -/
def update (s : ControllerState) (current_time noise : ℚ) : ControllerState × Bool :=
  update_target_setpoint_ev (tick_pre s noise) current_time (1/2)

/-- Fold of `update` over a list of `(current_time, noise)` tick inputs. -/
def run (s : ControllerState) (inputs : List (ℚ × ℚ)) : ControllerState :=
  inputs.foldl (fun st i => (update st i.1 i.2).1) s

/-- State after the first `j` ticks of `inputs`. -/
def runTake (s : ControllerState) (inputs : List (ℚ × ℚ)) (j : ℕ) : ControllerState :=
  run s (inputs.take j)

/-- Whether `_on_stabilized` fires on the `j`-th tick of `inputs`. -/
def firedAt (s : ControllerState) (inputs : List (ℚ × ℚ)) (j : ℕ) : Bool :=
  (update (runTake s inputs j) (inputs.getD j (0, 0)).1 (inputs.getD j (0, 0)).2).2

end TemperatureController

/-- One schedule entry of the simulated PID cooler instrument
(src/src/instruments/pid_cooler_simulator/interface.py): a dict with keys
`setpoint` and `dwell_time`. -/
structure ScheduleItem where
  setpoint : ℚ
  dwell_time : ℚ
  deriving Repr, DecidableEq

/-- The slice of `InstrumentInterface` state (pid_cooler_simulator) that
`_go_to_next_setpoint` reads and writes; `device_setpoint` models the
`PIDCoolerSimulator._setpoint` updated through `device.set_setpoint`. -/
structure SimCoolerState where
  schedule : List ScheduleItem
  schedule_index : ℕ
  target_setpoint : ℚ
  dwell_time : ℚ
  is_stable : Bool
  stabilization_start_time : Option ℚ
  stable_duration : ℚ
  device_setpoint : ℚ
  deriving Repr, DecidableEq

namespace SimCooler

/-- Advance step `InstrumentInterface._go_to_next_setpoint` (interface.py lines
182-193): advance the cursor modulo the schedule length, load the new
entry's setpoint and dwell time, push the setpoint to the device and
reset the stability state. -/
def go_to_next_setpoint (s : SimCoolerState) : SimCoolerState :=
  let i := (s.schedule_index + 1) % s.schedule.length
  let item := s.schedule.getD i ⟨0, 0⟩
  { s with
    schedule_index := i
    target_setpoint := item.setpoint
    dwell_time := item.dwell_time
    device_setpoint := item.setpoint
    is_stable := false
    stabilization_start_time := none
    stable_duration := 0 }

end SimCooler

/-! ## Concrete states used to evaluate the model at specific inputs -/

/-- A controller ready to advance: in band around 300 K, timer started at
time 0 with a 10 s dwell, an update request pending, and the plant
carrying a nonzero control-law accumulator (`cryo_system.integral_sum
= 5`, as after some unsaturated ticks). -/
def ctrlAdvanceReady : ControllerState :=
  { setpoint_schedule := [300, 298, 295]
    setpoint_stable_times := [10, 10, 10]
    cryo_system := { CryoSystem.init 300 with integral_sum := 5 }
    temperature := 300
    integral_sum := 0
    schedule_index := 0
    target_setpoint := 300
    current_stable_time := 10
    stabilization_start_time := some 0
    is_stable := true
    update_requested := true
    is_debug_mode := true }

/-- A controller whose plant sits far from the 300 K target (the plant is
at 400 K), with a running stabilization timer and `is_stable` set. -/
def ctrlFarFromTarget : ControllerState :=
  { setpoint_schedule := DEFAULT_SETPOINTS
    setpoint_stable_times := DEFAULT_STABLE_TIMES
    cryo_system := CryoSystem.init 400
    temperature := 400
    integral_sum := 0
    schedule_index := 0
    target_setpoint := 300
    current_stable_time := 10
    stabilization_start_time := some 0
    is_stable := true
    update_requested := false
    is_debug_mode := true }

/-- A controller at the target with no running timer and a dwell time of
zero. -/
def ctrlEnteringBand : ControllerState :=
  { setpoint_schedule := [300]
    setpoint_stable_times := [0]
    cryo_system := CryoSystem.init 300
    temperature := 300
    integral_sum := 0
    schedule_index := 0
    target_setpoint := 300
    current_stable_time := 0
    stabilization_start_time := none
    is_stable := false
    update_requested := false
    is_debug_mode := true }

/-- A controller whose plant's raw temperature is at the 300 K target
while its filtered temperature is 310 K, far out of band. -/
def ctrlRawVsFiltered : ControllerState :=
  { setpoint_schedule := DEFAULT_SETPOINTS
    setpoint_stable_times := DEFAULT_STABLE_TIMES
    cryo_system := { CryoSystem.init 300 with filtered_temp := 310, last_filtered_temp := 310 }
    temperature := 300
    integral_sum := 0
    schedule_index := 0
    target_setpoint := 300
    current_stable_time := 10
    stabilization_start_time := none
    is_stable := false
    update_requested := false
    is_debug_mode := true }

/-- A deterministic drifting plant: zero gains freeze the actuator at 0,
no radiative loss, and a parasitic load of 0.5 K per tick, so the raw
temperature climbs by exactly 0.5 K each tick from 299.5 K. -/
def ctrlDrifting : ControllerState :=
  { setpoint_schedule := [300, 302]
    setpoint_stable_times := [0, 0]
    cryo_system :=
      { CryoSystem.init (599/2) with
          kp := 0, ki := 0, kd := 0, heat_loss_coeff := 0, parasitic_heat_load := 1/2 }
    temperature := 599/2
    integral_sum := 0
    schedule_index := 0
    target_setpoint := 300
    current_stable_time := 0
    stabilization_start_time := none
    is_stable := false
    update_requested := true
    is_debug_mode := true }

/-- Five ticks at times 0..4 with the noise draw fixed to 0. -/
def driftInputs : List (ℚ × ℚ) := [(0, 0), (1, 0), (2, 0), (3, 0), (4, 0)]

/-- A simulated-cooler instrument sitting stably at the last entry of a
two-entry schedule. -/
def simAtLastEntry : SimCoolerState :=
  { schedule := [⟨300, 10⟩, ⟨295, 5⟩]
    schedule_index := 1
    target_setpoint := 295
    dwell_time := 5
    is_stable := true
    stabilization_start_time := some 2
    stable_duration := 7
    device_setpoint := 295 }

namespace TemperatureController

@[simp] lemma tick_pre_setpoint_schedule (s : ControllerState) (n : ℚ) :
    (tick_pre s n).setpoint_schedule = s.setpoint_schedule := rfl

@[simp] lemma tick_pre_setpoint_stable_times (s : ControllerState) (n : ℚ) :
    (tick_pre s n).setpoint_stable_times = s.setpoint_stable_times := rfl

@[simp] lemma tick_pre_integral_sum (s : ControllerState) (n : ℚ) :
    (tick_pre s n).integral_sum = s.integral_sum := rfl

@[simp] lemma tick_pre_schedule_index (s : ControllerState) (n : ℚ) :
    (tick_pre s n).schedule_index = s.schedule_index := rfl

@[simp] lemma tick_pre_target_setpoint (s : ControllerState) (n : ℚ) :
    (tick_pre s n).target_setpoint = s.target_setpoint := rfl

@[simp] lemma tick_pre_current_stable_time (s : ControllerState) (n : ℚ) :
    (tick_pre s n).current_stable_time = s.current_stable_time := rfl

@[simp] lemma tick_pre_stabilization_start_time (s : ControllerState) (n : ℚ) :
    (tick_pre s n).stabilization_start_time = s.stabilization_start_time := rfl

@[simp] lemma tick_pre_is_stable (s : ControllerState) (n : ℚ) :
    (tick_pre s n).is_stable = s.is_stable := rfl

@[simp] lemma tick_pre_update_requested (s : ControllerState) (n : ℚ) :
    (tick_pre s n).update_requested = s.update_requested := rfl

@[simp] lemma tick_pre_temperature (s : ControllerState) (n : ℚ) :
    (tick_pre s n).temperature =
      (CryoSystem.update_temperature s.cryo_system s.target_setpoint n).temperature := rfl

@[simp] lemma tick_pre_cryo_system (s : ControllerState) (n : ℚ) :
    (tick_pre s n).cryo_system =
      CryoSystem.update_temperature s.cryo_system s.target_setpoint n := rfl

/-- Exhaustive case analysis of one `_update_target_setpoint` evaluation:
out-of-band reset; in-band timer start; in-band waiting for the dwell;
dwell met with no pending request; dwell met with a pending request at
the last schedule entry; and the schedule-advance branch. -/
lemma update_target_setpoint_ev_cases (s : ControllerState) (t θ : ℚ) :
    (¬ is_temperature_stable s s.target_setpoint θ ∧
      update_target_setpoint_ev s t θ =
        ({ s with stabilization_start_time := none, is_stable := false }, false)) ∨
    (is_temperature_stable s s.target_setpoint θ ∧ s.stabilization_start_time = none ∧
      update_target_setpoint_ev s t θ =
        ({ s with stabilization_start_time := some t }, false)) ∨
    (is_temperature_stable s s.target_setpoint θ ∧
      (∃ t0, s.stabilization_start_time = some t0 ∧ ¬ s.current_stable_time ≤ t - t0) ∧
      update_target_setpoint_ev s t θ = (s, false)) ∨
    (is_temperature_stable s s.target_setpoint θ ∧
      (∃ t0, s.stabilization_start_time = some t0 ∧ s.current_stable_time ≤ t - t0) ∧
      s.update_requested = false ∧
      update_target_setpoint_ev s t θ = ({ s with is_stable := true }, !s.is_stable)) ∨
    (is_temperature_stable s s.target_setpoint θ ∧
      (∃ t0, s.stabilization_start_time = some t0 ∧ s.current_stable_time ≤ t - t0) ∧
      s.update_requested = true ∧ s.setpoint_schedule.length - 1 ≤ s.schedule_index ∧
      update_target_setpoint_ev s t θ = ({ s with is_stable := true }, !s.is_stable)) ∨
    (is_temperature_stable s s.target_setpoint θ ∧
      (∃ t0, s.stabilization_start_time = some t0 ∧ s.current_stable_time ≤ t - t0) ∧
      s.update_requested = true ∧ ¬ s.setpoint_schedule.length - 1 ≤ s.schedule_index ∧
      update_target_setpoint_ev s t θ =
        ({ s with
            schedule_index := s.schedule_index + 1
            target_setpoint := s.setpoint_schedule.getD (s.schedule_index + 1) 0
            current_stable_time := s.setpoint_stable_times.getD (s.schedule_index + 1) 0
            stabilization_start_time := none
            integral_sum := 0
            is_stable := false
            update_requested := false }, !s.is_stable)) := by
  by_cases hband : is_temperature_stable s s.target_setpoint θ
  · cases hs : s.stabilization_start_time with
    | none =>
        refine Or.inr (Or.inl ⟨hband, rfl, ?_⟩)
        simp [update_target_setpoint_ev, hband, hs]
    | some t0 =>
        by_cases hd : s.current_stable_time ≤ t - t0
        · cases hq : s.update_requested with
          | false =>
              refine Or.inr (Or.inr (Or.inr (Or.inl ⟨hband, ⟨t0, rfl, hd⟩, rfl, ?_⟩)))
              simp [update_target_setpoint_ev, hband, hs, hd, hq]
          | true =>
              by_cases hlast : s.setpoint_schedule.length - 1 ≤ s.schedule_index
              · refine Or.inr (Or.inr (Or.inr (Or.inr (Or.inl
                  ⟨hband, ⟨t0, rfl, hd⟩, rfl, hlast, ?_⟩))))
                simp [update_target_setpoint_ev, hband, hs, hd, hq, hlast]
              · refine Or.inr (Or.inr (Or.inr (Or.inr (Or.inr
                  ⟨hband, ⟨t0, rfl, hd⟩, rfl, hlast, ?_⟩))))
                simp [update_target_setpoint_ev, hband, hs, hd, hq, hlast]
        · refine Or.inr (Or.inr (Or.inl ⟨hband, ⟨t0, rfl, hd⟩, ?_⟩))
          simp [update_target_setpoint_ev, hband, hs, hd]
  · refine Or.inl ⟨hband, ?_⟩
    simp [update_target_setpoint_ev, hband]

/-- The `_on_stabilized` side effect fires on a tick exactly when the
system was not yet marked stable, the new raw temperature is in band, and
the running stabilization timer has met the dwell requirement. -/
lemma fired_iff (s : ControllerState) (t n : ℚ) :
    (update s t n).2 = true ↔
      (s.is_stable = false ∧
        is_temperature_stable (tick_pre s n) s.target_setpoint (1/2) ∧
        ∃ t0, s.stabilization_start_time = some t0 ∧ s.current_stable_time ≤ t - t0) := by
  have hcases := update_target_setpoint_ev_cases (tick_pre s n) t (1/2)
  unfold update
  constructor
  · intro hfired
    rcases hcases with ⟨hb, he⟩ | ⟨hb, hs, he⟩ | ⟨hb, hs, he⟩ |
        ⟨hb, ⟨t0, hs, hd⟩, hq, he⟩ | ⟨hb, ⟨t0, hs, hd⟩, hq, hlast, he⟩ |
        ⟨hb, ⟨t0, hs, hd⟩, hq, hlast, he⟩ <;>
      rw [he] at hfired <;> simp_all
  · rintro ⟨hstable, hband, t0, hs, hd⟩
    rcases hcases with ⟨hb, he⟩ | ⟨hb, hs', he⟩ | ⟨hb, ⟨t1, hs', hd'⟩, he⟩ |
        ⟨hb, ⟨t1, hs', hd'⟩, hq, he⟩ | ⟨hb, ⟨t1, hs', hd'⟩, hq, hlast, he⟩ |
        ⟨hb, ⟨t1, hs', hd'⟩, hq, hlast, he⟩
    · exact absurd (by simpa using hband) (by simpa using hb)
    · simp only [tick_pre_stabilization_start_time] at hs'
      rw [hs] at hs'; exact absurd hs' (by simp)
    · simp only [tick_pre_stabilization_start_time] at hs'
      rw [hs] at hs'
      rcases Option.some.inj hs' with rfl
      exact absurd (by simpa using hd) (by simpa using hd')
    · rw [he]; simp [hstable]
    · rw [he]; simp [hstable]
    · rw [he]; simp [hstable]

/-- A tick whose new raw temperature lies outside the stability band
clears the stabilization timer and the stable flag. -/
lemma out_of_band_step (s : ControllerState) (t n : ℚ)
    (hout : ¬ is_temperature_stable (tick_pre s n) s.target_setpoint (1/2)) :
    (update s t n).1.stabilization_start_time = none ∧
      (update s t n).1.is_stable = false := by
  have hcases := update_target_setpoint_ev_cases (tick_pre s n) t (1/2)
  unfold update
  rcases hcases with ⟨hb, he⟩ | ⟨hb, hs, he⟩ | ⟨hb, hs, he⟩ |
      ⟨hb, hs, hq, he⟩ | ⟨hb, hs, hq, hlast, he⟩ | ⟨hb, hs, hq, hlast, he⟩ <;>
    first
      | (rw [he]; exact ⟨rfl, rfl⟩)
      | exact absurd (by simpa using hb) hout

end TemperatureController

/-! ## Claim C3: the integral freezes while the actuator is saturated -/

/-- C3: for every call to `CryoSystem.update_temperature` in which the
previous tick's `cooling_power` is exactly 0 or exactly 100, the
accumulator `integral_sum` is unchanged by the call, for all values of
the target and noise inputs (hence for all values of the error). -/
theorem integral_frozen_at_saturation (s : CryoState) (target noise : ℚ)
    (h : s.cooling_power = 0 ∨ s.cooling_power = 100) :
    (CryoSystem.update_temperature s target noise).integral_sum = s.integral_sum := by
  have hcond : ¬(0 < s.cooling_power ∧ s.cooling_power < 100) := by
    rcases h with h0 | h100
    · rintro ⟨hlt, -⟩; rw [h0] at hlt; exact lt_irrefl 0 hlt
    · rintro ⟨-, hlt⟩; rw [h100] at hlt; exact lt_irrefl 100 hlt
  simp only [CryoSystem.update_temperature, hcond, if_false]

/-- Witness for C3: a concrete saturated state (cooling power 100) whose
integral is unchanged by a tick. -/
theorem integral_frozen_at_saturation_witness :
    ({ CryoSystem.init 300 with cooling_power := 100, integral_sum := 7 } : CryoState).cooling_power
        = 0 ∨
      ({ CryoSystem.init 300 with cooling_power := 100, integral_sum := 7 } : CryoState).cooling_power
        = 100 ∧
    (CryoSystem.update_temperature
        { CryoSystem.init 300 with cooling_power := 100, integral_sum := 7 } 295 1).integral_sum
      = 7 :=
  Or.inr ⟨rfl,
    integral_frozen_at_saturation
      { CryoSystem.init 300 with cooling_power := 100, integral_sum := 7 } 295 1 (Or.inr rfl)⟩

/-! ## Claim C6: the actuation command is the clamped PID output -/

/-- C6: after every call to `CryoSystem.update_temperature`, the stored
`cooling_power` lies in [0, 100] and equals the clamp to [0, 100] of
`kp·error + ki·integral_sum − kd·derivative`, where `error` is the target
minus the new filtered temperature, `integral_sum` is the post-call
accumulator and `derivative` is the filtered measurement difference over
dt = 1. -/
theorem cooling_power_clamped_pid (s : CryoState) (target noise : ℚ) :
    0 ≤ (CryoSystem.update_temperature s target noise).cooling_power ∧
    (CryoSystem.update_temperature s target noise).cooling_power ≤ 100 ∧
    (CryoSystem.update_temperature s target noise).cooling_power =
      max 0 (min 100
        (s.kp * (target - (CryoSystem.update_temperature s target noise).filtered_temp)
          + s.ki * (CryoSystem.update_temperature s target noise).integral_sum
          - s.kd * ((CryoSystem.update_temperature s target noise).filtered_temp
              - s.last_filtered_temp))) := by
  refine ⟨le_max_left 0 _, max_le (by norm_num) ((min_le_left _ _)), ?_⟩
  simp only [CryoSystem.update_temperature, div_one]

/-! ## Claim C4: losing the band clears the timer and the stable flag -/

/-- C4: invariant of every state produced by a `TemperatureController.update`
tick: whenever the last observed (raw) temperature lies outside the
stability band around the current target, `stabilization_start_time` is
`none` and `is_stable` is `false`; both are reset in the same tick in
which stability is lost. -/
theorem unstable_state_has_cleared_timer (s : ControllerState) (t n : ℚ)
    (hout : ¬ TemperatureController.is_temperature_stable
        (TemperatureController.update s t n).1
        ((TemperatureController.update s t n).1).target_setpoint (1/2)) :
    (TemperatureController.update s t n).1.stabilization_start_time = none ∧
      (TemperatureController.update s t n).1.is_stable = false := by
  have hcases := TemperatureController.update_target_setpoint_ev_cases
    (TemperatureController.tick_pre s n) t (1/2)
  unfold TemperatureController.update at hout ⊢
  rcases hcases with ⟨hb, he⟩ | ⟨hb, hs, he⟩ | ⟨hb, hs, he⟩ |
      ⟨hb, hs, hq, he⟩ | ⟨hb, hs, hq, hlast, he⟩ | ⟨hb, hs, hq, hlast, he⟩ <;>
    rw [he] at hout ⊢ <;>
    first
      | exact ⟨rfl, rfl⟩
      | exact absurd (by simpa using hb) (by simpa using hout)

/-- Witness for C4: a tick of the controller whose plant sits at 400 K
against a 300 K target clears the running timer and the stable flag. -/
theorem unstable_state_has_cleared_timer_witness :
    (TemperatureController.update ctrlFarFromTarget 0 0).1.stabilization_start_time = none ∧
      (TemperatureController.update ctrlFarFromTarget 0 0).1.is_stable = false :=
  unstable_state_has_cleared_timer ctrlFarFromTarget 0 0 (by
    norm_num [TemperatureController.update, TemperatureController.update_target_setpoint_ev,
      TemperatureController.tick_pre, CryoSystem.update_temperature, ctrlFarFromTarget,
      CryoSystem.init, DEFAULT_SETPOINTS, DEFAULT_STABLE_TIMES, max_def, min_def, abs_le])

/-! ## Claim C2: is_stable iff the band held continuously for the dwell -/

/-- C2: tick-level characterisation of the stabilization state machine of
`TemperatureController.update`.  (a) Any single tick observed outside the
threshold resets the stabilization timer to `none` and `is_stable` to
false.  (b) `is_stable` is newly set (the firing event of the tick) if
and only if it was false, the observed temperature is in band, and the
running timer started at some `t0` with at least `current_stable_time`
seconds elapsed.  (c) The timer value `some t0` survives a tick only if
the tick is in band, and it originates at an in-band tick whose wall
clock is exactly `t0` — so a timer reading `t0` certifies that every tick
since time `t0` observed the temperature inside the band, i.e. that the
band held continuously for `t − t0` seconds. -/
theorem stability_iff_continuous_dwell :
    (∀ (s : ControllerState) (t n : ℚ),
        ¬ TemperatureController.is_temperature_stable (TemperatureController.tick_pre s n)
            s.target_setpoint (1/2) →
          (TemperatureController.update s t n).1.stabilization_start_time = none ∧
            (TemperatureController.update s t n).1.is_stable = false) ∧
    (∀ (s : ControllerState) (t n : ℚ),
        (TemperatureController.update s t n).2 = true ↔
          (s.is_stable = false ∧
            TemperatureController.is_temperature_stable (TemperatureController.tick_pre s n)
              s.target_setpoint (1/2) ∧
            ∃ t0, s.stabilization_start_time = some t0 ∧ s.current_stable_time ≤ t - t0)) ∧
    (∀ (s : ControllerState) (t n t0 : ℚ),
        (TemperatureController.update s t n).1.stabilization_start_time = some t0 →
          TemperatureController.is_temperature_stable (TemperatureController.tick_pre s n)
              s.target_setpoint (1/2) ∧
            (s.stabilization_start_time = some t0 ∨
              (s.stabilization_start_time = none ∧ t0 = t))) := by
  refine ⟨fun s t n hout => TemperatureController.out_of_band_step s t n hout,
    fun s t n => TemperatureController.fired_iff s t n, ?_⟩
  intro s t n t0 hsome
  have hcases := TemperatureController.update_target_setpoint_ev_cases
    (TemperatureController.tick_pre s n) t (1/2)
  unfold TemperatureController.update at hsome
  rcases hcases with ⟨hb, he⟩ | ⟨hb, hs, he⟩ | ⟨hb, ⟨t1, hs, hd⟩, he⟩ |
      ⟨hb, ⟨t1, hs, hd⟩, hq, he⟩ | ⟨hb, ⟨t1, hs, hd⟩, hq, hlast, he⟩ |
      ⟨hb, ⟨t1, hs, hd⟩, hq, hlast, he⟩ <;>
    rw [he] at hsome <;> simp only [] at hsome
  · exact absurd hsome (by simp)
  · refine ⟨by simpa using hb, Or.inr ⟨by simpa using hs, ?_⟩⟩
    have : some t = some t0 := hsome
    exact (Option.some.inj this).symm
  · exact ⟨by simpa using hb, Or.inl (by simpa using hsome)⟩
  · exact ⟨by simpa using hb, Or.inl (by simpa using hsome)⟩
  · exact ⟨by simpa using hb, Or.inl (by simpa using hsome)⟩
  · exact absurd hsome (by simp)

/-- Witness for C2: on a controller with no running timer sitting at its
300 K target, a tick at time 5 leaves the timer at `some 5`, and the
characterisation confirms the tick was in band and the timer originated
at this very tick. -/
theorem stability_iff_continuous_dwell_witness :
    TemperatureController.is_temperature_stable
        (TemperatureController.tick_pre ctrlEnteringBand 0)
        ctrlEnteringBand.target_setpoint (1/2) ∧
      (ctrlEnteringBand.stabilization_start_time = some 5 ∨
        (ctrlEnteringBand.stabilization_start_time = none ∧ (5 : ℚ) = 5)) :=
  stability_iff_continuous_dwell.2.2 ctrlEnteringBand 5 0 5 (by
    norm_num [TemperatureController.update, TemperatureController.update_target_setpoint_ev,
      TemperatureController.tick_pre, CryoSystem.update_temperature, ctrlEnteringBand,
      CryoSystem.init, max_def, min_def, abs_le])

/-! ## Claim C9: the timer-starting tick never sets is_stable -/

/-- C9: even with a dwell time of 0, the tick at which the temperature
first enters the stability band (no running timer at tick start) never
sets `is_stable`: the tick leaves `is_stable` unchanged or false, so
`is_stable` can be true after such a tick only if it already was before;
it can first become true only on a later in-band tick. -/
theorem entering_band_does_not_set_stable (s : ControllerState) (t n : ℚ)
    (hnone : s.stabilization_start_time = none) :
    ((TemperatureController.update s t n).1.is_stable = s.is_stable ∨
        (TemperatureController.update s t n).1.is_stable = false) ∧
      ((TemperatureController.update s t n).1.is_stable = true → s.is_stable = true) := by
  have hcases := TemperatureController.update_target_setpoint_ev_cases
    (TemperatureController.tick_pre s n) t (1/2)
  unfold TemperatureController.update
  rcases hcases with ⟨hb, he⟩ | ⟨hb, hs, he⟩ | ⟨hb, ⟨t1, hs, hd⟩, he⟩ |
      ⟨hb, ⟨t1, hs, hd⟩, hq, he⟩ | ⟨hb, ⟨t1, hs, hd⟩, hq, hlast, he⟩ |
      ⟨hb, ⟨t1, hs, hd⟩, hq, hlast, he⟩
  · rw [he]
    exact ⟨Or.inr rfl, fun h => absurd h (by simp)⟩
  · rw [he]
    exact ⟨Or.inl (by simp), fun h => by simpa using h⟩
  all_goals
    exact absurd (by simpa using hs : s.stabilization_start_time = some t1) (by simp [hnone])

/-- Witness for C9: a controller at its target with dwell time 0 and no
running timer still reports `is_stable = false` after the in-band tick
that starts the timer. -/
theorem entering_band_does_not_set_stable_witness :
    (TemperatureController.update ctrlEnteringBand 5 0).1.is_stable = false := by
  rcases (entering_band_does_not_set_stable ctrlEnteringBand 5 0 rfl).1 with h | h
  · exact h.trans (by decide)
  · exact h

/-! ## Claim C7: the on-stabilized side effect fires once per episode -/

/-- C7: the `_on_stabilized` side effect fires only on a tick that finds
`is_stable` false and sets it true (raw temperature in band, timer
running, dwell met); and between any two firing ticks of a run there is a
tick after which `is_stable` is false again — the side effect cannot fire
twice without stability having been lost (or the schedule advanced, which
also resets `is_stable`) in between. -/
theorem on_stabilized_once_per_episode :
    (∀ (s : ControllerState) (t n : ℚ),
        (TemperatureController.update s t n).2 = true →
          s.is_stable = false ∧
            ((TemperatureController.update s t n).1.is_stable = true ∨
              (TemperatureController.update s t n).1.schedule_index = s.schedule_index + 1) ∧
            TemperatureController.is_temperature_stable (TemperatureController.tick_pre s n)
              s.target_setpoint (1/2) ∧
            ∃ t0, s.stabilization_start_time = some t0 ∧ s.current_stable_time ≤ t - t0) ∧
    (∀ (s : ControllerState) (inputs : List (ℚ × ℚ)) (i j : ℕ),
        j < inputs.length → i < j →
        TemperatureController.firedAt s inputs i = true →
        TemperatureController.firedAt s inputs j = true →
        ∃ k, i ≤ k ∧ k < j ∧
          (TemperatureController.runTake s inputs (k + 1)).is_stable = false) := by
  constructor
  · intro s t n h
    have hmp := (TemperatureController.fired_iff s t n).mp h
    refine ⟨hmp.1, ?_, hmp.2.1, hmp.2.2⟩
    have hcases := TemperatureController.update_target_setpoint_ev_cases
      (TemperatureController.tick_pre s n) t (1/2)
    unfold TemperatureController.update at h ⊢
    rcases hcases with ⟨hb, he⟩ | ⟨hb, hs, he⟩ | ⟨hb, hs, he⟩ |
        ⟨hb, hs, hq, he⟩ | ⟨hb, hs, hq, hlast, he⟩ | ⟨hb, hs, hq, hlast, he⟩ <;>
      rw [he] at h ⊢ <;> simp_all
  · intro s inputs i j hj hij hfi hfj
    have hj0 : 0 < j := lt_of_le_of_lt (Nat.zero_le i) hij
    refine ⟨j - 1, Nat.le_sub_one_of_lt hij, Nat.sub_lt hj0 one_pos, ?_⟩
    rw [Nat.sub_add_cancel hj0]
    have hfj' : (TemperatureController.update (TemperatureController.runTake s inputs j)
        (inputs.getD j (0, 0)).1 (inputs.getD j (0, 0)).2).2 = true := hfj
    exact ((TemperatureController.fired_iff _ _ _).mp hfj').1

/-- Witness for C7: on the deterministic drifting plant the side effect
fires at tick 1 (at 300 K) and again at tick 4 (at the advanced 302 K
target), and in between there is a tick after which `is_stable` is
false. -/
theorem on_stabilized_once_per_episode_witness :
    ∃ k, 1 ≤ k ∧ k < 4 ∧
      (TemperatureController.runTake ctrlDrifting driftInputs (k + 1)).is_stable = false :=
  on_stabilized_once_per_episode.2 ctrlDrifting driftInputs 1 4 (by norm_num [driftInputs])
    (by norm_num)
    (by
      norm_num [TemperatureController.firedAt, TemperatureController.runTake,
        TemperatureController.run, TemperatureController.update,
        TemperatureController.update_target_setpoint_ev, TemperatureController.tick_pre,
        CryoSystem.update_temperature, ctrlDrifting, driftInputs, CryoSystem.init,
        max_def, min_def, abs_le])
    (by
      norm_num [TemperatureController.firedAt, TemperatureController.runTake,
        TemperatureController.run, TemperatureController.update,
        TemperatureController.update_target_setpoint_ev, TemperatureController.tick_pre,
        CryoSystem.update_temperature, ctrlDrifting, driftInputs, CryoSystem.init,
        max_def, min_def, abs_le])

/-! ## Claim C8: stability is judged on the raw temperature -/

/-- C8: the controller evaluates stability against the raw simulated
temperature returned by `CryoSystem.update_temperature`, not the filtered
one: an in-band raw reading starts the stabilization timer with no
condition on the filtered temperature, and there are states whose raw
reading is in band while the filtered temperature is 8 K away; the PID
law itself, by contrast, computes its output from the filtered
temperature. -/
theorem stability_uses_raw_not_filtered :
    (∀ (s : ControllerState) (t n : ℚ),
        s.stabilization_start_time = none →
        TemperatureController.is_temperature_stable (TemperatureController.tick_pre s n)
          s.target_setpoint (1/2) →
        (TemperatureController.update s t n).1.stabilization_start_time = some t) ∧
    (TemperatureController.is_temperature_stable
        (TemperatureController.tick_pre ctrlRawVsFiltered 0)
        ctrlRawVsFiltered.target_setpoint (1/2) ∧
      ¬ |(TemperatureController.tick_pre ctrlRawVsFiltered 0).cryo_system.filtered_temp -
          ctrlRawVsFiltered.target_setpoint| ≤ (1/2 : ℚ) ∧
      (TemperatureController.update ctrlRawVsFiltered 5 0).1.stabilization_start_time = some 5) ∧
    (∀ (c : CryoState) (target noise : ℚ),
        (CryoSystem.update_temperature c target noise).cooling_power =
          max 0 (min 100
            (c.kp * (target - (CryoSystem.update_temperature c target noise).filtered_temp)
              + c.ki * (CryoSystem.update_temperature c target noise).integral_sum
              - c.kd * ((CryoSystem.update_temperature c target noise).filtered_temp
                  - c.last_filtered_temp)))) := by
  refine ⟨?_, ?_, ?_⟩
  · intro s t n hnone hband
    have hcases := TemperatureController.update_target_setpoint_ev_cases
      (TemperatureController.tick_pre s n) t (1/2)
    unfold TemperatureController.update
    rcases hcases with ⟨hb, he⟩ | ⟨hb, hs, he⟩ | ⟨hb, ⟨t1, hs, hd⟩, he⟩ |
        ⟨hb, ⟨t1, hs, hd⟩, hq, he⟩ | ⟨hb, ⟨t1, hs, hd⟩, hq, hlast, he⟩ |
        ⟨hb, ⟨t1, hs, hd⟩, hq, hlast, he⟩
    · exact absurd (by simpa using hband) (by simpa using hb)
    · rw [he]
    all_goals
      exact absurd (by simpa using hs : s.stabilization_start_time = some t1) (by simp [hnone])
  · refine ⟨?_, ?_, ?_⟩ <;>
      norm_num [TemperatureController.update, TemperatureController.update_target_setpoint_ev,
        TemperatureController.tick_pre, CryoSystem.update_temperature, ctrlRawVsFiltered,
        CryoSystem.init, DEFAULT_SETPOINTS, DEFAULT_STABLE_TIMES, max_def, min_def, abs_le]
  · intro c target noise
    simp only [CryoSystem.update_temperature, div_one]

/-- Witness for C8: the controller whose raw temperature is at the target
while its filtered temperature is 310 K starts the stabilization timer. -/
theorem stability_uses_raw_not_filtered_witness :
    (TemperatureController.update ctrlRawVsFiltered 5 0).1.stabilization_start_time = some 5 :=
  stability_uses_raw_not_filtered.1 ctrlRawVsFiltered 5 0 rfl (by
    norm_num [TemperatureController.tick_pre, CryoSystem.update_temperature, ctrlRawVsFiltered,
      CryoSystem.init, DEFAULT_SETPOINTS, DEFAULT_STABLE_TIMES, max_def, min_def, abs_le])

/-! ## Claim C5: the length-mismatch fallback for dwell times -/

/-- C5 counterexample: with setpoints [300, 298] and the provided
dwell-time list [5] of mismatched length, the reconciliation does not
return the first provided dwell value repeated ([5, 5]); it returns
[10, 10], the default value repeated. -/
theorem mismatch_fallback_counterexample :
    (read_schedule_reconcile [300, 298] [5]).2 ≠ List.replicate 2 (5 : ℚ) ∧
      (read_schedule_reconcile [300, 298] [5]).2 = [10, 10] := by
  constructor <;>
    norm_num [read_schedule_reconcile, DEFAULT_STABLE_TIMES, List.replicate]

/-- C5 (amended): for every pair of setpoint and dwell-time lists whose
lengths disagree, the reconciliation of `read_schedule_from_csv` replaces the
dwell-time list with the first default dwell value (10 s) repeated once
per setpoint — regardless of any provided dwell values — so the result is
uniform with length equal to the number of setpoints, and the setpoints
are passed through unchanged. -/
theorem mismatch_fallback_uniform_default (setpoints stable_times : List ℚ)
    (h : stable_times.length ≠ setpoints.length) :
    (read_schedule_reconcile setpoints stable_times).2 =
        List.replicate setpoints.length (10 : ℚ) ∧
      (read_schedule_reconcile setpoints stable_times).2.length = setpoints.length ∧
      (read_schedule_reconcile setpoints stable_times).1 = setpoints := by
  refine ⟨?_, ?_, ?_⟩ <;> simp [read_schedule_reconcile, h, DEFAULT_STABLE_TIMES]

/-- Witness for C5 (amended): three provided dwell values against two
setpoints collapse to the default 10 s repeated twice. -/
theorem mismatch_fallback_uniform_default_witness :
    (read_schedule_reconcile [300, 298] [5, 5, 5]).2 =
        List.replicate ([300, 298] : List ℚ).length (10 : ℚ) ∧
      (read_schedule_reconcile [300, 298] [5, 5, 5]).2.length =
        ([300, 298] : List ℚ).length ∧
      (read_schedule_reconcile [300, 298] [5, 5, 5]).1 = [300, 298] :=
  mismatch_fallback_uniform_default [300, 298] [5, 5, 5] (by norm_num)

/-! ## Claim C1: the advance tick and the control-law integral -/

/-- C1: at a concrete schedule-advance tick (in band at 300 K, timer met
the 10 s dwell at time 20, update requested, not at the last entry) the
controller advances (`schedule_index` becomes 1), resets its own
`integral_sum` field to 0 and `is_stable` to false — but the accumulator
actually used by the control law, `cryo_system.integral_sum`, is not
reset: it still holds its pre-advance value 5 after the tick.  The
controller-side `integral_sum` is written nowhere else and is never read,
so the reset of line 171 of src/TemperatureController.py has no effect on
the control law, while the earlier merged implementation
(src/backup/CryoSystem.py line 133) reset the live accumulator. -/
theorem advance_does_not_reset_control_law_integral :
    (TemperatureController.update ctrlAdvanceReady 20 0).1.schedule_index = 1 ∧
      (TemperatureController.update ctrlAdvanceReady 20 0).1.integral_sum = 0 ∧
      (TemperatureController.update ctrlAdvanceReady 20 0).1.is_stable = false ∧
      (TemperatureController.update ctrlAdvanceReady 20 0).1.cryo_system.integral_sum = 5 := by
  refine ⟨?_, ?_, ?_, ?_⟩ <;>
    norm_num [TemperatureController.update, TemperatureController.update_target_setpoint_ev,
      TemperatureController.tick_pre, CryoSystem.update_temperature, ctrlAdvanceReady,
      CryoSystem.init, max_def, min_def, abs_le]

/-! ## Claim C10: the simulated cooler's schedule advance wraps -/

/-- C10: `_go_to_next_setpoint` of the simulated PID cooler instrument
sets `schedule_index` to `(schedule_index + 1) mod len(schedule)` — so
advancing from the last entry wraps to index 0 rather than terminating —
and every advance resets `is_stable`, `stabilization_start_time` and
`stable_duration`. -/
theorem go_to_next_setpoint_wraps (s : SimCoolerState) (h : s.schedule ≠ []) :
    (SimCooler.go_to_next_setpoint s).schedule_index =
        (s.schedule_index + 1) % s.schedule.length ∧
      (s.schedule_index = s.schedule.length - 1 →
        (SimCooler.go_to_next_setpoint s).schedule_index = 0) ∧
      (SimCooler.go_to_next_setpoint s).is_stable = false ∧
      (SimCooler.go_to_next_setpoint s).stabilization_start_time = none ∧
      (SimCooler.go_to_next_setpoint s).stable_duration = 0 := by
  refine ⟨rfl, ?_, rfl, rfl, rfl⟩
  intro hlast
  have hpos : 0 < s.schedule.length := List.length_pos.mpr h
  show (s.schedule_index + 1) % s.schedule.length = 0
  rw [hlast, Nat.sub_add_cancel hpos, Nat.mod_self]

/-- Witness for C10: advancing the simulated cooler from the last entry
of its two-entry schedule wraps the cursor to index 0 and clears the
stability state. -/
theorem go_to_next_setpoint_wraps_witness :
    (SimCooler.go_to_next_setpoint simAtLastEntry).schedule_index =
        (simAtLastEntry.schedule_index + 1) % simAtLastEntry.schedule.length ∧
      (simAtLastEntry.schedule_index = simAtLastEntry.schedule.length - 1 →
        (SimCooler.go_to_next_setpoint simAtLastEntry).schedule_index = 0) ∧
      (SimCooler.go_to_next_setpoint simAtLastEntry).is_stable = false ∧
      (SimCooler.go_to_next_setpoint simAtLastEntry).stabilization_start_time = none ∧
      (SimCooler.go_to_next_setpoint simAtLastEntry).stable_duration = 0 :=
  go_to_next_setpoint_wraps simAtLastEntry (by simp [simAtLastEntry])
